import Mathlib

/-!
Shallow embedding of the QMI8658A IMU driver (src/src/qmi8658a.rs).

The driver talks to the sensor over an I2C bus (the `embedded_hal::i2c::I2c`
trait). We model the bus transport as a finite script of responses, one per
bus transaction: each transaction either succeeds (`Resp.ok`, carrying the
bytes the bus fills into the driver's read buffer; irrelevant for pure
writes) or fails with an opaque transport error of type `E` (`Resp.err`).
Every driver operation is a function from a script to the operation's
outcome together with the exact ordered list of bus transactions it issued.
`Outcome.exhausted` means the operation needed more bus transactions than
the script provides (it is how a finite script renders an operation that is
still running); `Outcome.panicked` marks a Rust panic, which we prove
unreachable.
-/

/-- Response of the transport to one bus transaction: success with the bytes
read (empty or ignored for a pure write), or a transport error of type `E`. -/
inductive Resp (E : Type) where
  | ok (bytes : List Nat)
  | err (e : E)
deriving DecidableEq

/-- A bus transaction as issued by the driver: `write addr bytes` models
`I2c::write`, `writeRead addr wbytes readLen` models `I2c::write_read` with a
read buffer of length `readLen`. -/
inductive Txn where
  | write (addr : Nat) (bytes : List Nat)
  | writeRead (addr : Nat) (wbytes : List Nat) (readLen : Nat)
deriving DecidableEq

/-- Outcome of a driver operation run against a finite script. -/
inductive Outcome (E α : Type) where
  | ok (a : α)
  | err (e : E)
  | exhausted
  | panicked
deriving DecidableEq

/-- Rust: `let mut buf = [0; n]` followed by a successful `write_read` filling
it with the transport's bytes. Bytes are `u8`, hence the `% 256`. -/
def fillBuf (n : Nat) (bytes : List Nat) : List Nat :=
  ((bytes.map (fun b => b % 256)) ++ List.replicate n 0).take n

/-- Indexing `buf[i]` into a byte buffer. -/
def byteAt (l : List Nat) (i : Nat) : Nat :=
  l.getD i 0

/-- Rust: `i16::from_le_bytes([lo, hi])`. -/
def i16_from_le_bytes (lo hi : Nat) : Int :=
  let u := lo % 256 + 256 * (hi % 256)
  if u < 32768 then (u : Int) else (u : Int) - 65536

/-- Rust: `const STATUS_INT_AVAIL: u8 = 1 << 0`. -/
def STATUS_INT_AVAIL : Nat := 1 <<< 0

/-- Rust: `const STATUS_INT_LOCKED: u8 = 1 << 1`. -/
def STATUS_INT_LOCKED : Nat := 1 <<< 1

/-- Register addresses from `mod registers`. -/
def WHO_AM_I : Nat := 0x00

/-- Rust: `registers::CTRL1 = 0x02`. -/
def CTRL1 : Nat := 0x02

/-- Rust: `registers::CTRL7 = 0x08`. -/
def CTRL7 : Nat := 0x08

/-- Rust: `registers::STATUSINT = 0x2d`. -/
def STATUSINT : Nat := 0x2d

/-- Rust: `registers::TEMP_L = 0x33`. -/
def TEMP_L : Nat := 0x33

/-- Rust: `registers::AX_L = 0x35`. -/
def AX_L : Nat := 0x35

/-- Rust: `struct ImuData`, six signed 16-bit fields. -/
structure ImuData where
  accel_x : Int
  accel_y : Int
  accel_z : Int
  gyro_x : Int
  gyro_y : Int
  gyro_z : Int
deriving DecidableEq

/-- Rust: `struct Config { ctrl1: u8, ctrl7: u8 }`. -/
structure Config where
  ctrl1 : Nat
  ctrl7 : Nat
deriving DecidableEq

/-- Rust: `impl Default for Config`. -/
def Config.default : Config :=
  ⟨0b00100000, 0b00000000⟩

/-- Rust: `Config::with_internal_high_speed_oscillator_disabled`, `ctrl1 |= 1 << 0`. -/
def Config.with_internal_high_speed_oscillator_disabled (c : Config) : Config :=
  { c with ctrl1 := Nat.lor c.ctrl1 (1 <<< 0) }

/-- Rust: `Config::with_fifo_interrupt_mapped_to_int1`, `ctrl1 |= 1 << 2`. -/
def Config.with_fifo_interrupt_mapped_to_int1 (c : Config) : Config :=
  { c with ctrl1 := Nat.lor c.ctrl1 (1 <<< 2) }

/-- Rust: `Config::with_int1_pin_output_enabled`, `ctrl1 |= 1 << 3`. -/
def Config.with_int1_pin_output_enabled (c : Config) : Config :=
  { c with ctrl1 := Nat.lor c.ctrl1 (1 <<< 3) }

/-- Rust: `Config::with_int2_pin_output_enabled`, `ctrl1 |= 1 << 4`. -/
def Config.with_int2_pin_output_enabled (c : Config) : Config :=
  { c with ctrl1 := Nat.lor c.ctrl1 (1 <<< 4) }

/-- Rust: `Config::with_little_endian_data`, `ctrl1 &= !(1 << 5)`; on `u8` the
mask `!(1 << 5)` is `0b11011111`. -/
def Config.with_little_endian_data (c : Config) : Config :=
  { c with ctrl1 := Nat.land c.ctrl1 0b11011111 }

/-- Rust: `Config::with_address_auto_increment`, `ctrl1 |= 1 << 6`. -/
def Config.with_address_auto_increment (c : Config) : Config :=
  { c with ctrl1 := Nat.lor c.ctrl1 (1 <<< 6) }

/-- Rust: `Config::with_3_wire_spi`, `ctrl1 |= 1 << 7`. -/
def Config.with_3_wire_spi (c : Config) : Config :=
  { c with ctrl1 := Nat.lor c.ctrl1 (1 <<< 7) }

/-- Rust: `Config::with_accelerometer_enabled`, `ctrl7 |= 1 << 0`. -/
def Config.with_accelerometer_enabled (c : Config) : Config :=
  { c with ctrl7 := Nat.lor c.ctrl7 (1 <<< 0) }

/-- Rust: `Config::with_gyroscope_enabled`, `ctrl7 |= 1 << 1`. -/
def Config.with_gyroscope_enabled (c : Config) : Config :=
  { c with ctrl7 := Nat.lor c.ctrl7 (1 <<< 1) }

/-- Rust: `Config::with_gyro_in_snooze_mode`, `ctrl7 |= 1 << 4`. -/
def Config.with_gyro_in_snooze_mode (c : Config) : Config :=
  { c with ctrl7 := Nat.lor c.ctrl7 (1 <<< 4) }

/-- Rust: `Config::with_data_ready_disabled`, `ctrl7 |= 1 << 5`. -/
def Config.with_data_ready_disabled (c : Config) : Config :=
  { c with ctrl7 := Nat.lor c.ctrl7 (1 <<< 5) }

/-- Rust: `Config::with_sync_sample_enabled`, `ctrl7 |= 1 << 7`. -/
def Config.with_sync_sample_enabled (c : Config) : Config :=
  { c with ctrl7 := Nat.lor c.ctrl7 (1 <<< 7) }

/-- The status-poll transaction: `write_read(address, [STATUSINT], 1 byte)`. -/
def statusTxn (addr : Nat) : Txn :=
  Txn.writeRead addr [STATUSINT] 1

/-- The burst-read transaction: `write_read(address, [AX_L], 12 bytes)`. -/
def burstTxn (addr : Nat) : Txn :=
  Txn.writeRead addr [AX_L] 12

/-- The identity-read transaction: `write_read(address, [WHO_AM_I], 1 byte)`. -/
def idTxn (addr : Nat) : Txn :=
  Txn.writeRead addr [WHO_AM_I] 1

/-- The temperature-read transaction: `write_read(address, [TEMP_L], 2 bytes)`. -/
def tempTxn (addr : Nat) : Txn :=
  Txn.writeRead addr [TEMP_L] 2

/-- The CTRL1 configuration write: `write(address, [CTRL1, config.ctrl1])`. -/
def ctrl1Txn (addr : Nat) (cfg : Config) : Txn :=
  Txn.write addr [CTRL1, cfg.ctrl1]

/-- The CTRL7 configuration write: `write(address, [CTRL7, config.ctrl7])`. -/
def ctrl7Txn (addr : Nat) (cfg : Config) : Txn :=
  Txn.write addr [CTRL7, cfg.ctrl7]

/-- Rust: `Qmi8658a::read_chip_id`, one 1-byte `write_read` at `WHO_AM_I`
returning `id[0]` unvalidated. -/
def read_chip_id {E : Type} (addr : Nat) (s : List (Resp E)) :
    Outcome E Nat × List Txn :=
  match s with
  | [] => (.exhausted, [])
  | .err e :: _ => (.err e, [idTxn addr])
  | .ok bytes :: _ => (.ok (byteAt (fillBuf 1 bytes) 0), [idTxn addr])

/-- Rust: `Qmi8658a::initialize`, a `write(addr, [CTRL1, ctrl1])` followed,
only if the first write succeeded, by `write(addr, [CTRL7, ctrl7])`; the `?`
operator propagates a transport error unchanged. -/
def initSensor {E : Type} (addr : Nat) (cfg : Config) (s : List (Resp E)) :
    Outcome E Unit × List Txn :=
  match s with
  | [] => (.exhausted, [])
  | .err e :: _ => (.err e, [ctrl1Txn addr cfg])
  | .ok _ :: s1 =>
    match s1 with
    | [] => (.exhausted, [ctrl1Txn addr cfg])
    | .err e :: _ => (.err e, [ctrl1Txn addr cfg, ctrl7Txn addr cfg])
    | .ok _ :: _ => (.ok (), [ctrl1Txn addr cfg, ctrl7Txn addr cfg])

/-- Rust: `Qmi8658a::read_temperature`, one 2-byte `write_read` at `TEMP_L`,
decoded with `i16::from_le_bytes`. -/
def read_temperature {E : Type} (addr : Nat) (s : List (Resp E)) :
    Outcome E Int × List Txn :=
  match s with
  | [] => (.exhausted, [])
  | .err e :: _ => (.err e, [tempTxn addr])
  | .ok bytes :: _ =>
    (.ok (i16_from_le_bytes (byteAt (fillBuf 2 bytes) 0) (byteAt (fillBuf 2 bytes) 1)),
     [tempTxn addr])

/-- Rust: `Qmi8658a::read_status_int`, one 1-byte `write_read` at `STATUSINT`
returning `status_int[0]`. Also returns the unconsumed remainder of the
script, for sequencing inside `read_imu_data`. -/
def read_status_int {E : Type} (addr : Nat) (s : List (Resp E)) :
    Outcome E Nat × List Txn × List (Resp E) :=
  match s with
  | [] => (.exhausted, [], [])
  | .err e :: rest => (.err e, [statusTxn addr], rest)
  | .ok bytes :: rest => (.ok (byteAt (fillBuf 1 bytes) 0), [statusTxn addr], rest)

/-- Rust: the `while (status_int & STATUS_INT_LOCKED) != STATUS_INT_LOCKED`
loop of `read_imu_data`: starting from the last observed status byte, keep
issuing status reads until a read returns a byte with the LOCKED bit set
(result `ok`), a read fails (`err`), or the script runs out (`exhausted`,
the finite-script rendering of a loop still running). -/
def waitLocked {E : Type} (addr : Nat) : Nat → List (Resp E) →
    Outcome E Nat × List Txn × List (Resp E)
  | status, s =>
    if Nat.land status STATUS_INT_LOCKED = STATUS_INT_LOCKED then
      (.ok status, [], s)
    else
      match s with
      | [] => (.exhausted, [], [])
      | .err e :: rest => (.err e, [statusTxn addr], rest)
      | .ok bytes :: rest =>
        let r := waitLocked addr (byteAt (fillBuf 1 bytes) 0) rest
        (r.1, statusTxn addr :: r.2.1, r.2.2)

/-- Rust: `imu[i..j].try_into()` to a `[u8; 2]`, which succeeds exactly when
the slice has length 2. -/
def tryInto2 (l : List Nat) : Option (Nat × Nat) :=
  match l with
  | [a, b] => some (a, b)
  | _ => none

/-- Rust: the decode block of `read_imu_data`, building `ImuData` from the six
2-byte slices of the 12-byte burst buffer via `try_into().unwrap()` and
`i16::from_le_bytes`; `none` corresponds to a panic of one of the `unwrap`s. -/
def decodeImu (buf : List Nat) : Option ImuData := do
  let (ax0, ax1) ← tryInto2 ((buf.drop 0).take 2)
  let (ay0, ay1) ← tryInto2 ((buf.drop 2).take 2)
  let (az0, az1) ← tryInto2 ((buf.drop 4).take 2)
  let (gx0, gx1) ← tryInto2 ((buf.drop 6).take 2)
  let (gy0, gy1) ← tryInto2 ((buf.drop 8).take 2)
  let (gz0, gz1) ← tryInto2 ((buf.drop 10).take 2)
  pure ⟨i16_from_le_bytes ax0 ax1, i16_from_le_bytes ay0 ay1, i16_from_le_bytes az0 az1,
        i16_from_le_bytes gx0 gx1, i16_from_le_bytes gy0 gy1, i16_from_le_bytes gz0 gz1⟩

/-- Rust: `Qmi8658a::read_imu_data`: read the status register; if AVAILABLE is
clear return `Ok(None)`; otherwise poll until LOCKED, then one 12-byte burst
`write_read` at `AX_L` decoded into `ImuData`. -/
def read_imu_data {E : Type} (addr : Nat) (s : List (Resp E)) :
    Outcome E (Option ImuData) × List Txn :=
  match read_status_int addr s with
  | (.err e, tr, _) => (.err e, tr)
  | (.exhausted, tr, _) => (.exhausted, tr)
  | (.panicked, tr, _) => (.panicked, tr)
  | (.ok status, tr, s1) =>
    if Nat.land status STATUS_INT_AVAIL ≠ STATUS_INT_AVAIL then
      (.ok none, tr)
    else
      match waitLocked addr status s1 with
      | (.err e, tr2, _) => (.err e, tr ++ tr2)
      | (.exhausted, tr2, _) => (.exhausted, tr ++ tr2)
      | (.panicked, tr2, _) => (.panicked, tr ++ tr2)
      | (.ok _, tr2, s2) =>
        match s2 with
        | [] => (.exhausted, tr ++ tr2)
        | .err e :: _ => (.err e, tr ++ tr2 ++ [burstTxn addr])
        | .ok bytes :: _ =>
          match decodeImu (fillBuf 12 bytes) with
          | some d => (.ok (some d), tr ++ tr2 ++ [burstTxn addr])
          | none => (.panicked, tr ++ tr2 ++ [burstTxn addr])

/-- A scripted status response that succeeds with the LOCKED bit clear: the
responses on which the LOCKED-polling loop keeps going. -/
def unlockedOk {E : Type} : Resp E → Bool
  | .ok bytes =>
    decide (Nat.land (byteAt (fillBuf 1 bytes) 0) STATUS_INT_LOCKED ≠ STATUS_INT_LOCKED)
  | .err _ => false

/-- C7: the default configuration value carries ctrl1 = 0b0010_0000 and
ctrl7 = 0b0000_0000. -/
theorem default_config_bytes :
    Config.default.ctrl1 = 0b00100000 ∧ Config.default.ctrl7 = 0b00000000 :=
  ⟨rfl, rfl⟩

/-- C1: on status responses 0x01, 0x01, 0x03 followed by the burst bytes
01 00 02 00 FF FF 00 00 00 00 00 80, `read_imu_data` issues exactly three
status reads and then exactly one 12-byte burst read at AX_L, and returns the
sample accelX=1, accelY=2, accelZ=-1, gyroX=0, gyroY=0, gyroZ=-32768. -/
theorem read_imu_data_scripted_sample (E : Type) (addr : Nat) :
    read_imu_data addr
      ([.ok [0x01], .ok [0x01], .ok [0x03],
        .ok [0x01, 0x00, 0x02, 0x00, 0xFF, 0xFF, 0x00, 0x00, 0x00, 0x00, 0x00, 0x80]] :
        List (Resp E)) =
      (.ok (some ⟨1, 2, -1, 0, 0, -32768⟩),
       [statusTxn addr, statusTxn addr, statusTxn addr, burstTxn addr]) :=
  rfl

/-- C2: whenever the first status read succeeds with the AVAILABLE bit clear,
`read_imu_data` returns the successful no-sample result `Ok(None)` and the
whole call issues exactly that one status transaction — no burst read and no
further status read — whatever the rest of the script holds. -/
theorem read_imu_data_not_available (E : Type) (addr : Nat) (bytes : List Nat)
    (rest : List (Resp E))
    (h : Nat.land (byteAt (fillBuf 1 bytes) 0) STATUS_INT_AVAIL = 0) :
    read_imu_data addr (.ok bytes :: rest) = (.ok none, [statusTxn addr]) := by
  have h' : Nat.land (byteAt (fillBuf 1 bytes) 0) 1 = 0 := h
  simp [read_imu_data, read_status_int, STATUS_INT_AVAIL, h']

/-- Witness for C2 at the concrete status byte 0x00. -/
theorem read_imu_data_not_available_witness :
    Nat.land (byteAt (fillBuf 1 [0x00]) 0) STATUS_INT_AVAIL = 0 ∧
    read_imu_data 0x6b ([.ok [0x00]] : List (Resp Unit)) =
      (.ok none, [statusTxn 0x6b]) :=
  ⟨by decide, read_imu_data_not_available Unit 0x6b [0x00] [] (by decide)⟩

/-- C3: for every configuration value, initialization writes CTRL1 (with the
accumulated ctrl1 byte) and then CTRL7 (with the accumulated ctrl7 byte) as
two bus writes in that order; when the CTRL1 write fails the transport error
is returned and the CTRL7 write is never attempted. -/
theorem initSensor_two_writes (E : Type) (addr : Nat) (cfg : Config) :
    (∀ (e : E) rest, initSensor addr cfg (.err e :: rest) =
        (.err e, [ctrl1Txn addr cfg])) ∧
    (∀ b (e : E) rest, initSensor addr cfg (.ok b :: .err e :: rest) =
        (.err e, [ctrl1Txn addr cfg, ctrl7Txn addr cfg])) ∧
    (∀ b b2 (rest : List (Resp E)), initSensor addr cfg (.ok b :: .ok b2 :: rest) =
        (.ok (), [ctrl1Txn addr cfg, ctrl7Txn addr cfg])) :=
  ⟨fun _ _ => rfl, fun _ _ _ => rfl, fun _ _ _ => rfl⟩

/-- C8: `read_temperature` issues the single 2-byte read at TEMP_L and decodes
the two buffer bytes as a little-endian signed 16-bit integer; in particular
on the bytes [0x00, 0x01] it returns 256. -/
theorem read_temperature_le_decode :
    (∀ (E : Type) (addr : Nat) (bytes : List Nat) (rest : List (Resp E)),
        read_temperature addr (.ok bytes :: rest) =
          (.ok (i16_from_le_bytes (byteAt (fillBuf 2 bytes) 0) (byteAt (fillBuf 2 bytes) 1)),
           [tempTxn addr])) ∧
    read_temperature 0x6b ([.ok [0x00, 0x01]] : List (Resp Unit)) =
      (.ok 256, [tempTxn 0x6b]) :=
  ⟨fun _ _ _ _ => rfl, by decide⟩

theorem unlockedOk_ok {E : Type} (bytes : List Nat)
    (h : unlockedOk (Resp.ok bytes : Resp E) = true) :
    Nat.land (byteAt (fillBuf 1 bytes) 0) STATUS_INT_LOCKED ≠ STATUS_INT_LOCKED := by
  simpa [unlockedOk] using h

theorem waitLocked_locked {E : Type} (addr status : Nat) (s : List (Resp E))
    (h : Nat.land status STATUS_INT_LOCKED = STATUS_INT_LOCKED) :
    waitLocked addr status s = (.ok status, [], s) := by
  rw [waitLocked.eq_def]
  simp [h]

theorem waitLocked_step_nil {E : Type} (addr status : Nat)
    (h : Nat.land status STATUS_INT_LOCKED ≠ STATUS_INT_LOCKED) :
    waitLocked addr status ([] : List (Resp E)) = (.exhausted, [], []) := by
  rw [waitLocked.eq_def]
  simp [h]

theorem waitLocked_step_err {E : Type} (addr status : Nat) (e : E)
    (rest : List (Resp E))
    (h : Nat.land status STATUS_INT_LOCKED ≠ STATUS_INT_LOCKED) :
    waitLocked addr status (.err e :: rest) = (.err e, [statusTxn addr], rest) := by
  rw [waitLocked.eq_def]
  simp [h]

theorem waitLocked_step_ok {E : Type} (addr status : Nat) (bytes : List Nat)
    (rest : List (Resp E))
    (h : Nat.land status STATUS_INT_LOCKED ≠ STATUS_INT_LOCKED) :
    waitLocked addr status (.ok bytes :: rest) =
      ((waitLocked addr (byteAt (fillBuf 1 bytes) 0) rest).1,
       statusTxn addr :: (waitLocked addr (byteAt (fillBuf 1 bytes) 0) rest).2.1,
       (waitLocked addr (byteAt (fillBuf 1 bytes) 0) rest).2.2) := by
  rw [waitLocked.eq_def]
  simp [h]

theorem waitLocked_all_unlocked {E : Type} (addr : Nat) (s : List (Resp E)) :
    ∀ status : Nat, Nat.land status STATUS_INT_LOCKED ≠ STATUS_INT_LOCKED →
    (∀ r ∈ s, unlockedOk r = true) →
    waitLocked addr status s =
      (.exhausted, List.replicate s.length (statusTxn addr), []) := by
  induction s with
  | nil =>
    intro status h _
    rw [waitLocked_step_nil addr status h]
    simp
  | cons r rest ih =>
    intro status h hall
    cases r with
    | err e =>
      have := hall (.err e) (List.mem_cons_self _ _)
      simp [unlockedOk] at this
    | ok bytes =>
      have hb := unlockedOk_ok bytes (hall (.ok bytes) (List.mem_cons_self _ _))
      rw [waitLocked_step_ok addr status bytes rest h]
      rw [ih _ hb (fun r hr => hall r (List.mem_cons_of_mem _ hr))]
      simp [List.replicate_succ]

theorem waitLocked_err_after_unlocked {E : Type} (addr : Nat) (p : List (Resp E)) :
    ∀ status : Nat, Nat.land status STATUS_INT_LOCKED ≠ STATUS_INT_LOCKED →
    (∀ r ∈ p, unlockedOk r = true) →
    ∀ (e : E) (rest : List (Resp E)),
    waitLocked addr status (p ++ .err e :: rest) =
      (.err e, List.replicate (p.length + 1) (statusTxn addr), rest) := by
  induction p with
  | nil =>
    intro status h _ e rest
    rw [List.nil_append, waitLocked_step_err addr status e rest h]
    simp [List.replicate]
  | cons r p ih =>
    intro status h hall e rest
    cases r with
    | err e' =>
      have := hall (.err e') (List.mem_cons_self _ _)
      simp [unlockedOk] at this
    | ok bytes =>
      have hb := unlockedOk_ok bytes (hall (.ok bytes) (List.mem_cons_self _ _))
      rw [List.cons_append, waitLocked_step_ok addr status bytes _ h]
      rw [ih _ hb (fun r hr => hall r (List.mem_cons_of_mem _ hr)) e rest]
      simp [List.replicate_succ]

theorem waitLocked_locked_after_unlocked {E : Type} (addr : Nat) (p : List (Resp E)) :
    ∀ status : Nat, Nat.land status STATUS_INT_LOCKED ≠ STATUS_INT_LOCKED →
    (∀ r ∈ p, unlockedOk r = true) →
    ∀ bL : List Nat,
    Nat.land (byteAt (fillBuf 1 bL) 0) STATUS_INT_LOCKED = STATUS_INT_LOCKED →
    ∀ rest : List (Resp E),
    waitLocked addr status (p ++ .ok bL :: rest) =
      (.ok (byteAt (fillBuf 1 bL) 0),
       List.replicate (p.length + 1) (statusTxn addr), rest) := by
  induction p with
  | nil =>
    intro status h _ bL hL rest
    rw [List.nil_append, waitLocked_step_ok addr status bL rest h,
        waitLocked_locked addr _ rest hL]
    simp [List.replicate]
  | cons r p ih =>
    intro status h hall bL hL rest
    cases r with
    | err e' =>
      have := hall (.err e') (List.mem_cons_self _ _)
      simp [unlockedOk] at this
    | ok bytes =>
      have hb := unlockedOk_ok bytes (hall (.ok bytes) (List.mem_cons_self _ _))
      rw [List.cons_append, waitLocked_step_ok addr status bytes _ h]
      rw [ih _ hb (fun r hr => hall r (List.mem_cons_of_mem _ hr)) bL hL rest]
      simp [List.replicate_succ]

theorem waitLocked_exhausted_iff {E : Type} (addr : Nat) (s : List (Resp E)) :
    ∀ status : Nat,
    ((waitLocked addr status s).1 = .exhausted ↔
      (Nat.land status STATUS_INT_LOCKED ≠ STATUS_INT_LOCKED ∧
       ∀ r ∈ s, unlockedOk r = true)) := by
  induction s with
  | nil =>
    intro status
    by_cases h : Nat.land status STATUS_INT_LOCKED = STATUS_INT_LOCKED
    · rw [waitLocked_locked addr status _ h]
      simp [h]
    · rw [waitLocked_step_nil addr status h]
      simp [h]
  | cons r rest ih =>
    intro status
    by_cases h : Nat.land status STATUS_INT_LOCKED = STATUS_INT_LOCKED
    · rw [waitLocked_locked addr status _ h]
      simp [h]
    · cases r with
      | err e =>
        rw [waitLocked_step_err addr status e rest h]
        simp [h, unlockedOk]
      | ok bytes =>
        rw [waitLocked_step_ok addr status bytes rest h]
        show (waitLocked addr (byteAt (fillBuf 1 bytes) 0) rest).1 = Outcome.exhausted ↔ _
        rw [ih (byteAt (fillBuf 1 bytes) 0)]
        constructor
        · rintro ⟨hb, hall⟩
          refine ⟨h, fun r hr => ?_⟩
          rcases List.mem_cons.mp hr with h1 | h1
          · subst h1
            simp [unlockedOk, hb]
          · exact hall r h1
        · rintro ⟨-, hall⟩
          refine ⟨?_, fun r hr => hall r (List.mem_cons_of_mem _ hr)⟩
          have := hall (.ok bytes) (List.mem_cons_self _ _)
          simpa [unlockedOk] using this

/-- C5: the LOCKED-polling sub-loop has no iteration bound. First, a call of
`read_imu_data` whose first status read shows AVAILABLE set (LOCKED clear) and
whose transport thereafter answers only successful LOCKED-clear status bytes
consumes the whole script — however long — issuing one status read per
response and producing no result (so for every n there is a run of n+1 status
reads that still has not returned). Second, the polling loop fails to
terminate on a script exactly when every scripted response is a successful
status byte with LOCKED clear: it returns (with a locked status or a
transport error) if and only if some response is an error or has LOCKED set. -/
theorem read_imu_data_unbounded_poll :
    (∀ (E : Type) (addr : Nat) (b0 : List Nat) (rest : List (Resp E)),
        Nat.land (byteAt (fillBuf 1 b0) 0) STATUS_INT_AVAIL = STATUS_INT_AVAIL →
        Nat.land (byteAt (fillBuf 1 b0) 0) STATUS_INT_LOCKED ≠ STATUS_INT_LOCKED →
        (∀ r ∈ rest, unlockedOk r = true) →
        read_imu_data addr (.ok b0 :: rest) =
          (.exhausted, List.replicate (rest.length + 1) (statusTxn addr))) ∧
    (∀ (E : Type) (addr status : Nat) (s : List (Resp E)),
        ((waitLocked addr status s).1 = .exhausted ↔
          (Nat.land status STATUS_INT_LOCKED ≠ STATUS_INT_LOCKED ∧
           ∀ r ∈ s, unlockedOk r = true))) := by
  constructor
  · intro E addr b0 rest h1 h2 hall
    simp only [read_imu_data, read_status_int]
    rw [if_neg (not_not_intro h1)]
    rw [waitLocked_all_unlocked addr rest _ h2 hall]
    simp [List.replicate_succ]
  · intro E addr status s
    exact waitLocked_exhausted_iff addr s status

/-- Witness for C5: a two-response all-unlocked script is consumed whole with
two status reads and no result, and the loop-nontermination criterion holds
on the empty script. -/
theorem read_imu_data_unbounded_poll_witness :
    (Nat.land (byteAt (fillBuf 1 [0x01]) 0) STATUS_INT_AVAIL = STATUS_INT_AVAIL ∧
     Nat.land (byteAt (fillBuf 1 [0x01]) 0) STATUS_INT_LOCKED ≠ STATUS_INT_LOCKED ∧
     read_imu_data 0x6b ([.ok [0x01], .ok [0x01]] : List (Resp Unit)) =
       (.exhausted, List.replicate 2 (statusTxn 0x6b))) ∧
    ((waitLocked 0x6b 0x01 ([] : List (Resp Unit))).1 = .exhausted ↔
      (Nat.land 0x01 STATUS_INT_LOCKED ≠ STATUS_INT_LOCKED ∧
       ∀ r ∈ ([] : List (Resp Unit)), unlockedOk r = true)) :=
  ⟨⟨by decide, by decide,
    read_imu_data_unbounded_poll.1 Unit 0x6b [0x01] [.ok [0x01]]
      (by decide) (by decide) (by decide)⟩,
   read_imu_data_unbounded_poll.2 Unit 0x6b 0x01 []⟩

/-- C6: a transport failure at any step of any driver operation is returned
to the caller as that same error value, and the operation issues no bus
transaction beyond the failing one: (1) identity read; (2) the CTRL1 write of
initialization (the CTRL7 write is then never issued); (3) the CTRL7 write of
initialization; (4) temperature read; (5) status read; (6) the first status
read of the sampled read; (7) a status read inside the LOCKED-polling loop
(no burst read is issued); (8) the burst read itself. -/
theorem transport_error_propagated :
    (∀ (E : Type) (addr : Nat) (e : E) (rest : List (Resp E)),
        read_chip_id addr (.err e :: rest) = (.err e, [idTxn addr])) ∧
    (∀ (E : Type) (addr : Nat) (cfg : Config) (e : E) (rest : List (Resp E)),
        initSensor addr cfg (.err e :: rest) = (.err e, [ctrl1Txn addr cfg])) ∧
    (∀ (E : Type) (addr : Nat) (cfg : Config) (b : List Nat) (e : E)
        (rest : List (Resp E)),
        initSensor addr cfg (.ok b :: .err e :: rest) =
          (.err e, [ctrl1Txn addr cfg, ctrl7Txn addr cfg])) ∧
    (∀ (E : Type) (addr : Nat) (e : E) (rest : List (Resp E)),
        read_temperature addr (.err e :: rest) = (.err e, [tempTxn addr])) ∧
    (∀ (E : Type) (addr : Nat) (e : E) (rest : List (Resp E)),
        read_status_int addr (.err e :: rest) = (.err e, [statusTxn addr], rest)) ∧
    (∀ (E : Type) (addr : Nat) (e : E) (rest : List (Resp E)),
        read_imu_data addr (.err e :: rest) = (.err e, [statusTxn addr])) ∧
    (∀ (E : Type) (addr : Nat) (b0 : List Nat) (p : List (Resp E)) (e : E)
        (rest : List (Resp E)),
        Nat.land (byteAt (fillBuf 1 b0) 0) STATUS_INT_AVAIL = STATUS_INT_AVAIL →
        Nat.land (byteAt (fillBuf 1 b0) 0) STATUS_INT_LOCKED ≠ STATUS_INT_LOCKED →
        (∀ r ∈ p, unlockedOk r = true) →
        read_imu_data addr (.ok b0 :: (p ++ .err e :: rest)) =
          (.err e, List.replicate (p.length + 2) (statusTxn addr))) ∧
    (∀ (E : Type) (addr : Nat) (b0 : List Nat) (p : List (Resp E)) (bL : List Nat)
        (e : E) (rest : List (Resp E)),
        Nat.land (byteAt (fillBuf 1 b0) 0) STATUS_INT_AVAIL = STATUS_INT_AVAIL →
        Nat.land (byteAt (fillBuf 1 b0) 0) STATUS_INT_LOCKED ≠ STATUS_INT_LOCKED →
        (∀ r ∈ p, unlockedOk r = true) →
        Nat.land (byteAt (fillBuf 1 bL) 0) STATUS_INT_LOCKED = STATUS_INT_LOCKED →
        read_imu_data addr (.ok b0 :: (p ++ .ok bL :: .err e :: rest)) =
          (.err e, List.replicate (p.length + 2) (statusTxn addr) ++ [burstTxn addr])) := by
  refine ⟨fun _ _ _ _ => rfl, fun _ _ _ _ _ => rfl, fun _ _ _ _ _ _ => rfl,
    fun _ _ _ _ => rfl, fun _ _ _ _ => rfl, fun _ _ _ _ => rfl, ?_, ?_⟩
  · intro E addr b0 p e rest h1 h2 hall
    simp only [read_imu_data, read_status_int]
    rw [if_neg (not_not_intro h1)]
    rw [waitLocked_err_after_unlocked addr p _ h2 hall e rest]
    simp [List.replicate_succ]
  · intro E addr b0 p bL e rest h1 h2 hall hL
    simp only [read_imu_data, read_status_int]
    rw [if_neg (not_not_intro h1)]
    rw [waitLocked_locked_after_unlocked addr p _ h2 hall bL hL (.err e :: rest)]
    simp [List.replicate_succ]

/-- Witness for C6 at concrete inputs: a failing poll read and a failing
burst read, each returning the error with the trace stopping at the failing
transaction. -/
theorem transport_error_propagated_witness :
    read_imu_data 0x6b ([.ok [0x01], .err 7] : List (Resp Nat)) =
      (.err 7, List.replicate 2 (statusTxn 0x6b)) ∧
    read_imu_data 0x6b ([.ok [0x01], .ok [0x03], .err 7] : List (Resp Nat)) =
      (.err 7, List.replicate 2 (statusTxn 0x6b) ++ [burstTxn 0x6b]) ∧
    read_chip_id 0x6b ([.err 7] : List (Resp Nat)) = (.err 7, [idTxn 0x6b]) ∧
    initSensor 0x6b Config.default ([.err 7] : List (Resp Nat)) =
      (.err 7, [ctrl1Txn 0x6b Config.default]) :=
  ⟨transport_error_propagated.2.2.2.2.2.2.1 Nat 0x6b [0x01] [] 7 []
      (by decide) (by decide) (by decide),
   transport_error_propagated.2.2.2.2.2.2.2 Nat 0x6b [0x01] [] [0x03] 7 []
      (by decide) (by decide) (by decide) (by decide),
   transport_error_propagated.1 Nat 0x6b 7 [],
   transport_error_propagated.2.1 Nat 0x6b Config.default 7 []⟩

theorem fillBuf_length (n : Nat) (bytes : List Nat) : (fillBuf n bytes).length = n := by
  simp [fillBuf]

theorem decodeImu_isSome_of_length (l : List Nat) (h : l.length = 12) :
    (decodeImu l).isSome = true := by
  rcases l with _ | ⟨a, l⟩; · simp at h
  rcases l with _ | ⟨b, l⟩; · simp at h
  rcases l with _ | ⟨c, l⟩; · simp at h
  rcases l with _ | ⟨d, l⟩; · simp at h
  rcases l with _ | ⟨e, l⟩; · simp at h
  rcases l with _ | ⟨f, l⟩; · simp at h
  rcases l with _ | ⟨g, l⟩; · simp at h
  rcases l with _ | ⟨a2, l⟩; · simp at h
  rcases l with _ | ⟨b2, l⟩; · simp at h
  rcases l with _ | ⟨c2, l⟩; · simp at h
  rcases l with _ | ⟨d2, l⟩; · simp at h
  rcases l with _ | ⟨e2, l⟩; · simp at h
  rcases l with _ | ⟨f2, l⟩
  · rfl
  · simp at h

theorem waitLocked_ne_panicked {E : Type} (addr : Nat) (s : List (Resp E)) :
    ∀ status : Nat, (waitLocked addr status s).1 ≠ .panicked := by
  induction s with
  | nil =>
    intro status
    by_cases h : Nat.land status STATUS_INT_LOCKED = STATUS_INT_LOCKED
    · rw [waitLocked_locked addr status _ h]
      simp
    · rw [waitLocked_step_nil addr status h]
      simp
  | cons r rest ih =>
    intro status
    by_cases h : Nat.land status STATUS_INT_LOCKED = STATUS_INT_LOCKED
    · rw [waitLocked_locked addr status _ h]
      simp
    · cases r with
      | err e =>
        rw [waitLocked_step_err addr status e rest h]
        simp
      | ok bytes =>
        rw [waitLocked_step_ok addr status bytes rest h]
        show (waitLocked addr (byteAt (fillBuf 1 bytes) 0) rest).1 ≠ _
        exact ih _

theorem read_imu_data_ne_panicked {E : Type} (addr : Nat) (s : List (Resp E)) :
    (read_imu_data addr s).1 ≠ .panicked := by
  cases s with
  | nil => simp [read_imu_data, read_status_int]
  | cons r rest =>
    cases r with
    | err e => simp [read_imu_data, read_status_int]
    | ok bytes =>
      simp only [read_imu_data, read_status_int]
      by_cases h : Nat.land (byteAt (fillBuf 1 bytes) 0) STATUS_INT_AVAIL ≠ STATUS_INT_AVAIL
      · rw [if_pos h]
        simp
      · rw [if_neg h]
        rcases hw : waitLocked addr (byteAt (fillBuf 1 bytes) 0) rest with ⟨o, tr2, s2⟩
        cases o with
        | panicked =>
          exfalso
          have := waitLocked_ne_panicked addr rest (byteAt (fillBuf 1 bytes) 0)
          rw [hw] at this
          exact this rfl
        | err e => simp
        | exhausted => simp
        | ok st =>
          cases s2 with
          | nil => simp
          | cons r2 rest2 =>
            cases r2 with
            | err e => simp
            | ok bytes2 =>
              have hs := decodeImu_isSome_of_length (fillBuf 12 bytes2)
                (fillBuf_length 12 bytes2)
              obtain ⟨d, hd⟩ := Option.isSome_iff_exists.mp hs
              simp [hd]

/-- C9: no driver operation panics. Every operation, on every transport
script, yields an `ok` value, the no-sample marker, a transport error, or
needs a longer script — never the `panicked` outcome; in particular the
slice-to-array conversions of the decode step always succeed, because every
2-byte slice of the 12-byte burst buffer has length exactly 2. -/
theorem no_driver_panic :
    (∀ (E : Type) (addr : Nat) (s : List (Resp E)),
        (read_chip_id addr s).1 ≠ .panicked) ∧
    (∀ (E : Type) (addr : Nat) (cfg : Config) (s : List (Resp E)),
        (initSensor addr cfg s).1 ≠ .panicked) ∧
    (∀ (E : Type) (addr : Nat) (s : List (Resp E)),
        (read_temperature addr s).1 ≠ .panicked) ∧
    (∀ (E : Type) (addr : Nat) (s : List (Resp E)),
        (read_status_int addr s).1 ≠ .panicked) ∧
    (∀ bytes : List Nat, (decodeImu (fillBuf 12 bytes)).isSome = true) ∧
    (∀ (E : Type) (addr : Nat) (s : List (Resp E)),
        (read_imu_data addr s).1 ≠ .panicked) := by
  refine ⟨?_, ?_, ?_, ?_, ?_, ?_⟩
  · intro E addr s
    cases s with
    | nil => simp [read_chip_id]
    | cons r rest => cases r <;> simp [read_chip_id]
  · intro E addr cfg s
    cases s with
    | nil => simp [initSensor]
    | cons r rest =>
      cases r with
      | err e => simp [initSensor]
      | ok b =>
        cases rest with
        | nil => simp [initSensor]
        | cons r2 rest2 => cases r2 <;> simp [initSensor]
  · intro E addr s
    cases s with
    | nil => simp [read_temperature]
    | cons r rest => cases r <;> simp [read_temperature]
  · intro E addr s
    cases s with
    | nil => simp [read_status_int]
    | cons r rest => cases r <;> simp [read_status_int]
  · intro bytes
    exact decodeImu_isSome_of_length (fillBuf 12 bytes) (fillBuf_length 12 bytes)
  · intro E addr s
    exact read_imu_data_ne_panicked addr s

/-- The twelve options of the configuration builder, one per `with_*` setter. -/
inductive Opt where
  | oscDisabled
  | fifoInt1
  | int1Out
  | int2Out
  | littleEndian
  | autoInc
  | spi3wire
  | accelEn
  | gyroEn
  | gyroSnooze
  | drDisabled
  | syncSample
deriving DecidableEq

/-- Applying one option is calling its source setter. -/
def applyOpt : Opt → Config → Config
  | .oscDisabled, c => c.with_internal_high_speed_oscillator_disabled
  | .fifoInt1, c => c.with_fifo_interrupt_mapped_to_int1
  | .int1Out, c => c.with_int1_pin_output_enabled
  | .int2Out, c => c.with_int2_pin_output_enabled
  | .littleEndian, c => c.with_little_endian_data
  | .autoInc, c => c.with_address_auto_increment
  | .spi3wire, c => c.with_3_wire_spi
  | .accelEn, c => c.with_accelerometer_enabled
  | .gyroEn, c => c.with_gyroscope_enabled
  | .gyroSnooze, c => c.with_gyro_in_snooze_mode
  | .drDisabled, c => c.with_data_ready_disabled
  | .syncSample, c => c.with_sync_sample_enabled

/-- Chained builder calls, applied left to right as in
`Config::default().with_a().with_b()`. -/
def applyOpts : List Opt → Config → Config
  | [], c => c
  | o :: l, c => applyOpts l (applyOpt o c)

/-- Bitwise OR of the ctrl1 set-masks of the selected options (the
little-endian option sets no ctrl1 bit: it clears one). -/
def selMask1 (s : Opt → Bool) : Nat :=
  Nat.lor (if s .oscDisabled then 1 else 0)
    (Nat.lor (if s .fifoInt1 then 4 else 0)
      (Nat.lor (if s .int1Out then 8 else 0)
        (Nat.lor (if s .int2Out then 16 else 0)
          (Nat.lor (if s .autoInc then 64 else 0) (if s .spi3wire then 128 else 0)))))

/-- Bitwise OR of the ctrl7 masks of the selected options. -/
def selMask7 (s : Opt → Bool) : Nat :=
  Nat.lor (if s .accelEn then 1 else 0)
    (Nat.lor (if s .gyroEn then 2 else 0)
      (Nat.lor (if s .gyroSnooze then 16 else 0)
        (Nat.lor (if s .drDisabled then 32 else 0) (if s .syncSample then 128 else 0))))

/-- The ctrl1 byte the builder reaches from the default under selection `s`:
the default byte 0b0010_0000 ORed with the selected set-masks, with bit 5
cleared when the little-endian option is selected. -/
def builtCtrl1 (s : Opt → Bool) : Nat :=
  if s .littleEndian then Nat.land (Nat.lor 0b00100000 (selMask1 s)) 0b11011111
  else Nat.lor 0b00100000 (selMask1 s)

/-- The configuration the builder reaches from the default under selection
`s` (ctrl7 has default byte 0, so it is just the OR of the selected masks). -/
def builtConfig (s : Opt → Bool) : Config :=
  ⟨builtCtrl1 s, selMask7 s⟩

/-- Selection `s` with option `o` added. -/
def updSel (s : Opt → Bool) (o : Opt) : Opt → Bool :=
  fun o' => s o' || (o' == o)

theorem builtConfig_congr (s t : Opt → Bool) (h : ∀ o, s o = t o) :
    builtConfig s = builtConfig t :=
  congrArg builtConfig (funext h)

theorem applyOpt_builtConfig (o : Opt) (s : Opt → Bool) :
    applyOpt o (builtConfig s) = builtConfig (updSel s o) := by
  cases o with
  | oscDisabled =>
    simp [applyOpt, Config.with_internal_high_speed_oscillator_disabled, builtConfig,
      builtCtrl1, selMask1, selMask7, updSel]
    cases hle : s Opt.littleEndian <;> cases h1 : s Opt.oscDisabled <;>
      cases h2 : s Opt.fifoInt1 <;> cases h3 : s Opt.int1Out <;>
      cases h4 : s Opt.int2Out <;> cases h5 : s Opt.autoInc <;>
      cases h6 : s Opt.spi3wire <;> simp [hle, h1, h2, h3, h4, h5, h6] <;> decide
  | fifoInt1 =>
    simp [applyOpt, Config.with_fifo_interrupt_mapped_to_int1, builtConfig,
      builtCtrl1, selMask1, selMask7, updSel]
    cases hle : s Opt.littleEndian <;> cases h1 : s Opt.oscDisabled <;>
      cases h2 : s Opt.fifoInt1 <;> cases h3 : s Opt.int1Out <;>
      cases h4 : s Opt.int2Out <;> cases h5 : s Opt.autoInc <;>
      cases h6 : s Opt.spi3wire <;> simp [hle, h1, h2, h3, h4, h5, h6] <;> decide
  | int1Out =>
    simp [applyOpt, Config.with_int1_pin_output_enabled, builtConfig,
      builtCtrl1, selMask1, selMask7, updSel]
    cases hle : s Opt.littleEndian <;> cases h1 : s Opt.oscDisabled <;>
      cases h2 : s Opt.fifoInt1 <;> cases h3 : s Opt.int1Out <;>
      cases h4 : s Opt.int2Out <;> cases h5 : s Opt.autoInc <;>
      cases h6 : s Opt.spi3wire <;> simp [hle, h1, h2, h3, h4, h5, h6] <;> decide
  | int2Out =>
    simp [applyOpt, Config.with_int2_pin_output_enabled, builtConfig,
      builtCtrl1, selMask1, selMask7, updSel]
    cases hle : s Opt.littleEndian <;> cases h1 : s Opt.oscDisabled <;>
      cases h2 : s Opt.fifoInt1 <;> cases h3 : s Opt.int1Out <;>
      cases h4 : s Opt.int2Out <;> cases h5 : s Opt.autoInc <;>
      cases h6 : s Opt.spi3wire <;> simp [hle, h1, h2, h3, h4, h5, h6] <;> decide
  | littleEndian =>
    simp [applyOpt, Config.with_little_endian_data, builtConfig,
      builtCtrl1, selMask1, selMask7, updSel]
    cases hle : s Opt.littleEndian <;> cases h1 : s Opt.oscDisabled <;>
      cases h2 : s Opt.fifoInt1 <;> cases h3 : s Opt.int1Out <;>
      cases h4 : s Opt.int2Out <;> cases h5 : s Opt.autoInc <;>
      cases h6 : s Opt.spi3wire <;> simp [hle, h1, h2, h3, h4, h5, h6] <;> decide
  | autoInc =>
    simp [applyOpt, Config.with_address_auto_increment, builtConfig,
      builtCtrl1, selMask1, selMask7, updSel]
    cases hle : s Opt.littleEndian <;> cases h1 : s Opt.oscDisabled <;>
      cases h2 : s Opt.fifoInt1 <;> cases h3 : s Opt.int1Out <;>
      cases h4 : s Opt.int2Out <;> cases h5 : s Opt.autoInc <;>
      cases h6 : s Opt.spi3wire <;> simp [hle, h1, h2, h3, h4, h5, h6] <;> decide
  | spi3wire =>
    simp [applyOpt, Config.with_3_wire_spi, builtConfig,
      builtCtrl1, selMask1, selMask7, updSel]
    cases hle : s Opt.littleEndian <;> cases h1 : s Opt.oscDisabled <;>
      cases h2 : s Opt.fifoInt1 <;> cases h3 : s Opt.int1Out <;>
      cases h4 : s Opt.int2Out <;> cases h5 : s Opt.autoInc <;>
      cases h6 : s Opt.spi3wire <;> simp [hle, h1, h2, h3, h4, h5, h6] <;> decide
  | accelEn =>
    simp [applyOpt, Config.with_accelerometer_enabled, builtConfig,
      builtCtrl1, selMask1, selMask7, updSel]
    cases h1 : s Opt.accelEn <;> cases h2 : s Opt.gyroEn <;>
      cases h3 : s Opt.gyroSnooze <;> cases h4 : s Opt.drDisabled <;>
      cases h5 : s Opt.syncSample <;> simp [h1, h2, h3, h4, h5] <;> decide
  | gyroEn =>
    simp [applyOpt, Config.with_gyroscope_enabled, builtConfig,
      builtCtrl1, selMask1, selMask7, updSel]
    cases h1 : s Opt.accelEn <;> cases h2 : s Opt.gyroEn <;>
      cases h3 : s Opt.gyroSnooze <;> cases h4 : s Opt.drDisabled <;>
      cases h5 : s Opt.syncSample <;> simp [h1, h2, h3, h4, h5] <;> decide
  | gyroSnooze =>
    simp [applyOpt, Config.with_gyro_in_snooze_mode, builtConfig,
      builtCtrl1, selMask1, selMask7, updSel]
    cases h1 : s Opt.accelEn <;> cases h2 : s Opt.gyroEn <;>
      cases h3 : s Opt.gyroSnooze <;> cases h4 : s Opt.drDisabled <;>
      cases h5 : s Opt.syncSample <;> simp [h1, h2, h3, h4, h5] <;> decide
  | drDisabled =>
    simp [applyOpt, Config.with_data_ready_disabled, builtConfig,
      builtCtrl1, selMask1, selMask7, updSel]
    cases h1 : s Opt.accelEn <;> cases h2 : s Opt.gyroEn <;>
      cases h3 : s Opt.gyroSnooze <;> cases h4 : s Opt.drDisabled <;>
      cases h5 : s Opt.syncSample <;> simp [h1, h2, h3, h4, h5] <;> decide
  | syncSample =>
    simp [applyOpt, Config.with_sync_sample_enabled, builtConfig,
      builtCtrl1, selMask1, selMask7, updSel]
    cases h1 : s Opt.accelEn <;> cases h2 : s Opt.gyroEn <;>
      cases h3 : s Opt.gyroSnooze <;> cases h4 : s Opt.drDisabled <;>
      cases h5 : s Opt.syncSample <;> simp [h1, h2, h3, h4, h5] <;> decide

theorem applyOpts_builtConfig (l : List Opt) :
    ∀ s : Opt → Bool, applyOpts l (builtConfig s) =
      builtConfig (fun o => s o || l.contains o) := by
  induction l with
  | nil =>
    intro s
    show builtConfig s = _
    exact builtConfig_congr _ _ (fun o => by cases s o <;> rfl)
  | cons o l ih =>
    intro s
    show applyOpts l (applyOpt o (builtConfig s)) = _
    rw [applyOpt_builtConfig o s, ih (updSel s o)]
    refine builtConfig_congr _ _ (fun o' => ?_)
    show (updSel s o o' || l.contains o') = (s o' || (o :: l).contains o')
    rw [List.contains_cons]
    show ((s o' || (o' == o)) || l.contains o') = (s o' || ((o' == o) || l.contains o'))
    exact Bool.or_assoc _ _ _

theorem applyOpts_default_eq (l : List Opt) :
    applyOpts l Config.default = builtConfig (fun o => l.contains o) := by
  have h0 : Config.default = builtConfig (fun _ => false) := rfl
  rw [h0, applyOpts_builtConfig]
  exact builtConfig_congr _ _ (fun o => by simp)

/-- C4 counterexample: for the empty selection of options the built ctrl1
byte is the default 0b0010_0000, not the bitwise OR of the selected options'
masks, which is 0 — the claim's "OR of the selected masks" formula forgets
the default byte (and, dually, the little-endian option clears a bit rather
than ORing one). -/
theorem config_builder_not_mask_or :
    (applyOpts [] Config.default).ctrl1 ≠
      selMask1 (fun o => ([] : List Opt).contains o) := by
  decide

/-- C4 (amended): applying any list of builder options to the default
configuration yields the canonical bytes determined by the selected set
alone: ctrl1 is the default byte 0b0010_0000 ORed with the selected options'
ctrl1 set-masks, with bit 5 cleared when the little-endian option is
selected, and ctrl7 is the OR of the selected options' ctrl7 masks. In
particular the result depends only on which options occur in the list —
application order is irrelevant and repeated application is idempotent. -/
theorem config_builder_canonical :
    (∀ l : List Opt, applyOpts l Config.default =
        builtConfig (fun o => l.contains o)) ∧
    (∀ l₁ l₂ : List Opt, (∀ o : Opt, l₁.contains o = l₂.contains o) →
        applyOpts l₁ Config.default = applyOpts l₂ Config.default) ∧
    (∀ (o : Opt) (l : List Opt),
        applyOpts (o :: o :: l) Config.default = applyOpts (o :: l) Config.default) := by
  refine ⟨applyOpts_default_eq, ?_, ?_⟩
  · intro l₁ l₂ h
    rw [applyOpts_default_eq, applyOpts_default_eq]
    exact builtConfig_congr _ _ h
  · intro o l
    rw [applyOpts_default_eq, applyOpts_default_eq]
    refine builtConfig_congr _ _ (fun o' => ?_)
    rw [List.contains_cons, List.contains_cons]
    cases o' == o <;> rfl

/-- Witness for C4 (amended): two selections with equal membership — one a
permutation of the other with a duplicate — build the same configuration. -/
theorem config_builder_canonical_witness :
    applyOpts [Opt.accelEn, Opt.gyroEn] Config.default =
      applyOpts [Opt.gyroEn, Opt.accelEn, Opt.accelEn] Config.default :=
  config_builder_canonical.2.1 [Opt.accelEn, Opt.gyroEn]
    [Opt.gyroEn, Opt.accelEn, Opt.accelEn] (fun o => by cases o <;> rfl)

theorem testBit_lor_pow_of_ne (x : Nat) (k i : Nat) (hi : i ≠ k) :
    (Nat.lor x (2 ^ k)).testBit i = x.testBit i := by
  show (x ||| 2 ^ k).testBit i = x.testBit i
  rw [Nat.testBit_lor, Nat.testBit_two_pow_of_ne (Ne.symm hi), Bool.or_false]

theorem testBit_land_223 (x : Nat) (hx : x < 256) (i : Nat) (hi : i ≠ 5) :
    (Nat.land x 223).testBit i = x.testBit i := by
  show (x &&& 223).testBit i = x.testBit i
  rcases Nat.lt_or_ge i 8 with h8 | h8
  · rw [Nat.testBit_land]
    have h223 : (223 : Nat).testBit i = true := by
      interval_cases i <;> first | decide | exact absurd rfl hi
    rw [h223, Bool.and_true]
  · have hb : (256 : Nat) ≤ 2 ^ i := by
      have h2 := Nat.pow_le_pow_right (show 0 < 2 by norm_num) h8
      exact le_trans (by norm_num) h2
    have hx1 : x.testBit i = false := Nat.testBit_lt_two_pow (lt_of_lt_of_le hx hb)
    have hx2 : (x &&& 223).testBit i = false :=
      Nat.testBit_lt_two_pow (lt_of_le_of_lt Nat.and_le_left (lt_of_lt_of_le hx hb))
    rw [hx1, hx2]

/-- C10: every builder setter touches only its own register byte, and within
that byte at most its single designated bit: the seven ctrl1 setters leave
ctrl7 unchanged and every ctrl1 bit other than their own unchanged, and the
five ctrl7 setters leave ctrl1 unchanged and every ctrl7 bit other than
their own unchanged. (For the bit-clearing little-endian setter this is
stated for byte-valued ctrl1, i.e. ctrl1 < 256, as in the `u8` source.) -/
theorem config_setters_frame :
    (∀ c : Config, c.with_internal_high_speed_oscillator_disabled.ctrl7 = c.ctrl7 ∧
      ∀ i : Nat, i ≠ 0 →
        c.with_internal_high_speed_oscillator_disabled.ctrl1.testBit i = c.ctrl1.testBit i) ∧
    (∀ c : Config, c.with_fifo_interrupt_mapped_to_int1.ctrl7 = c.ctrl7 ∧
      ∀ i : Nat, i ≠ 2 →
        c.with_fifo_interrupt_mapped_to_int1.ctrl1.testBit i = c.ctrl1.testBit i) ∧
    (∀ c : Config, c.with_int1_pin_output_enabled.ctrl7 = c.ctrl7 ∧
      ∀ i : Nat, i ≠ 3 →
        c.with_int1_pin_output_enabled.ctrl1.testBit i = c.ctrl1.testBit i) ∧
    (∀ c : Config, c.with_int2_pin_output_enabled.ctrl7 = c.ctrl7 ∧
      ∀ i : Nat, i ≠ 4 →
        c.with_int2_pin_output_enabled.ctrl1.testBit i = c.ctrl1.testBit i) ∧
    (∀ c : Config, c.ctrl1 < 256 → c.with_little_endian_data.ctrl7 = c.ctrl7 ∧
      ∀ i : Nat, i ≠ 5 →
        c.with_little_endian_data.ctrl1.testBit i = c.ctrl1.testBit i) ∧
    (∀ c : Config, c.with_address_auto_increment.ctrl7 = c.ctrl7 ∧
      ∀ i : Nat, i ≠ 6 →
        c.with_address_auto_increment.ctrl1.testBit i = c.ctrl1.testBit i) ∧
    (∀ c : Config, c.with_3_wire_spi.ctrl7 = c.ctrl7 ∧
      ∀ i : Nat, i ≠ 7 →
        c.with_3_wire_spi.ctrl1.testBit i = c.ctrl1.testBit i) ∧
    (∀ c : Config, c.with_accelerometer_enabled.ctrl1 = c.ctrl1 ∧
      ∀ i : Nat, i ≠ 0 →
        c.with_accelerometer_enabled.ctrl7.testBit i = c.ctrl7.testBit i) ∧
    (∀ c : Config, c.with_gyroscope_enabled.ctrl1 = c.ctrl1 ∧
      ∀ i : Nat, i ≠ 1 →
        c.with_gyroscope_enabled.ctrl7.testBit i = c.ctrl7.testBit i) ∧
    (∀ c : Config, c.with_gyro_in_snooze_mode.ctrl1 = c.ctrl1 ∧
      ∀ i : Nat, i ≠ 4 →
        c.with_gyro_in_snooze_mode.ctrl7.testBit i = c.ctrl7.testBit i) ∧
    (∀ c : Config, c.with_data_ready_disabled.ctrl1 = c.ctrl1 ∧
      ∀ i : Nat, i ≠ 5 →
        c.with_data_ready_disabled.ctrl7.testBit i = c.ctrl7.testBit i) ∧
    (∀ c : Config, c.with_sync_sample_enabled.ctrl1 = c.ctrl1 ∧
      ∀ i : Nat, i ≠ 7 →
        c.with_sync_sample_enabled.ctrl7.testBit i = c.ctrl7.testBit i) := by
  refine ⟨fun c => ⟨rfl, fun i hi => ?_⟩, fun c => ⟨rfl, fun i hi => ?_⟩,
    fun c => ⟨rfl, fun i hi => ?_⟩, fun c => ⟨rfl, fun i hi => ?_⟩,
    fun c hc => ⟨rfl, fun i hi => ?_⟩, fun c => ⟨rfl, fun i hi => ?_⟩,
    fun c => ⟨rfl, fun i hi => ?_⟩, fun c => ⟨rfl, fun i hi => ?_⟩,
    fun c => ⟨rfl, fun i hi => ?_⟩, fun c => ⟨rfl, fun i hi => ?_⟩,
    fun c => ⟨rfl, fun i hi => ?_⟩, fun c => ⟨rfl, fun i hi => ?_⟩⟩
  · exact testBit_lor_pow_of_ne c.ctrl1 0 i hi
  · exact testBit_lor_pow_of_ne c.ctrl1 2 i hi
  · exact testBit_lor_pow_of_ne c.ctrl1 3 i hi
  · exact testBit_lor_pow_of_ne c.ctrl1 4 i hi
  · exact testBit_land_223 c.ctrl1 hc i hi
  · exact testBit_lor_pow_of_ne c.ctrl1 6 i hi
  · exact testBit_lor_pow_of_ne c.ctrl1 7 i hi
  · exact testBit_lor_pow_of_ne c.ctrl7 0 i hi
  · exact testBit_lor_pow_of_ne c.ctrl7 1 i hi
  · exact testBit_lor_pow_of_ne c.ctrl7 4 i hi
  · exact testBit_lor_pow_of_ne c.ctrl7 5 i hi
  · exact testBit_lor_pow_of_ne c.ctrl7 7 i hi

/-- Witness for C10 at a concrete configuration, bit index and byte bound:
the little-endian setter (which needs the byte bound) and one OR setter. -/
theorem config_setters_frame_witness :
    ((Config.mk 0b00100000 0).ctrl1 < 256 ∧
     (Config.mk 0b00100000 0).with_little_endian_data.ctrl7 =
       (Config.mk 0b00100000 0).ctrl7 ∧
     (Config.mk 0b00100000 0).with_little_endian_data.ctrl1.testBit 0 =
       (Config.mk 0b00100000 0).ctrl1.testBit 0) ∧
    ((Config.mk 0b00100000 0).with_accelerometer_enabled.ctrl1 =
       (Config.mk 0b00100000 0).ctrl1 ∧
     (Config.mk 0b00100000 0).with_accelerometer_enabled.ctrl7.testBit 3 =
       (Config.mk 0b00100000 0).ctrl7.testBit 3) :=
  ⟨⟨by decide,
    (config_setters_frame.2.2.2.2.1 (Config.mk 0b00100000 0) (by decide)).1,
    (config_setters_frame.2.2.2.2.1 (Config.mk 0b00100000 0) (by decide)).2 0 (by decide)⟩,
   ⟨(config_setters_frame.2.2.2.2.2.2.2.1 (Config.mk 0b00100000 0)).1,
    (config_setters_frame.2.2.2.2.2.2.2.1 (Config.mk 0b00100000 0)).2 3 (by decide)⟩⟩
